import Mathlib

/-!
Shallow embedding of `src/yatracker/tracker/client.py` (YaTracker HTTP
client core): status translation, executor-level exception wrapping,
the facade `request`, session lifecycle (`get_session` / `close`),
multipart file-form preparation, and default-header construction.
Machine-level details that the claims do not touch (TLS contexts,
connectors, actual sockets) are abstracted; HTTP statuses are `Int`
(Python ints), bodies are `String`, Python dicts are insertion-ordered
association lists.
-/

namespace YaTracker

/-- Modelled from the spec: the ApiError taxonomy of `yatracker.exceptions`
(the module itself is not under `src/`; `client.py` only raises these).
Constructors keep the code's class names: `NotAuthorizedError`,
`SufficientRightsError` (the spec calls it InsufficientRights),
`ObjectNotFoundError`, `AlreadyExistsError`, and the generic
`YaTrackerError text` (the spec's Generic), which carries a message that
may be Python `None` (hence `Option String`). -/
inductive TrackerError where
  | notAuthorized
  | sufficientRights
  | objectNotFound
  | alreadyExists
  | generic (text : Option String)
deriving DecidableEq, Repr

/-- `BaseClient._check_status` (client.py lines 93-110): return on
status < 300 (`HTTPStatus.MULTIPLE_CHOICES`), typed errors for
401/403/404/409, otherwise `YaTrackerError(text)`. -/
def check_status (status : Int) (text : String) : Except TrackerError Unit :=
  if status < 300 then .ok ()
  else if status = 401 then .error .notAuthorized
  else if status = 403 then .error .sufficientRights
  else if status = 404 then .error .objectNotFound
  else if status = 409 then .error .alreadyExists
  else .error (.generic (some text))

/-- A raw HTTP response as the transport hands it to `_make_request`:
`response.status` and `await response.text()`. -/
structure HttpResponse where
  status : Int
  text : String
deriving DecidableEq, Repr

/-- Python `d.get(k)` on a string-keyed, string-valued dict, modelled as a
first-match lookup on an insertion-ordered association list. -/
def pyGet : List (String × String) → String → Option String
  | [], _ => none
  | (k, v) :: rest, key => if k = key then some v else pyGet rest key

/-- Python `a or b` on `d.get(...)` results: `None` and the empty string
are falsy, any other string is truthy. -/
def pyOr (a b : Option String) : Option String :=
  match a with
  | some s => if s = "" then b else some s
  | none => b

/-- The runtime type of the `data` argument of `_process_exception`
(`dict[str, Any] | str` in the annotation). -/
inductive ProcData where
  | dict (entries : List (String × String))
  | str (s : String)
deriving DecidableEq, Repr

/-- `AIOHTTPClient._process_exception` (client.py lines 215-230):
`text = data.get("message") or data.get("detail")` when `data` is a dict,
else `text = data`; returns `YaTrackerError(text)`. The `status` argument
is accepted and ignored, as in the source. -/
def process_exception (status : Int) (data : ProcData) : TrackerError :=
  match data with
  | .dict d => .generic (pyOr (pyGet d "message") (pyGet d "detail"))
  | .str s => .generic (some s)

/-- `AIOHTTPClient._make_request` (client.py lines 170-192) applied to the
response the session produced: raises `_process_exception(status, text)`
when `status != 200`, otherwise returns `(status, text)`. Note the text
passed to `_process_exception` is the raw response text (a `str`). -/
def make_request (resp : HttpResponse) : Except TrackerError (Int × String) :=
  if resp.status ≠ 200 then .error (process_exception resp.status (.str resp.text))
  else .ok (resp.status, resp.text)

/-- A Python value as returned by the facade: `BaseClient.request` is
annotated `dict | list | str`; at runtime it returns `body`, the response
text string. `obj` is a JSON-style mapping value, present so that the
spec-claimed decoded result is expressible in the same type. -/
inductive PyVal where
  | str (s : String)
  | obj (entries : List (String × String))
deriving DecidableEq, Repr

/-- The tail of `BaseClient.request` (client.py lines 59-80) after the
transport call: given the outcome of `self._make_request(...)`, run
`self._check_status(status, body)` and then `return body` (the body text
string, unmodified). -/
def request (transport : Except TrackerError (Int × String)) : Except TrackerError PyVal :=
  match transport with
  | .error e => .error e
  | .ok (status, body) =>
    match check_status status body with
    | .error e => .error e
    | .ok _ => .ok (.str body)

/-- `f"/{self._api_version}{uri}"` from `BaseClient.request`. -/
def build_url (api_version uri : String) : String :=
  "/" ++ api_version ++ uri

/-- `BaseClient.request` as instantiated by `AIOHTTPClient`: the concrete
`_make_request` feeds the facade's status check, given the server's
response. -/
def aiohttp_request (resp : HttpResponse) : Except TrackerError PyVal :=
  request (make_request resp)

/-- End-to-end facade call: build the versioned URL, obtain the server's
response for that method/URL, then run the AIOHTTP request pipeline. -/
def aiohttp_request_full (server : String → String → HttpResponse)
    (api_version method uri : String) : Except TrackerError PyVal :=
  aiohttp_request (server method (build_url api_version uri))

/-- Whitespace skipping for the spec-side JSON reading. -/
def skipWs (cs : List Char) : List Char :=
  cs.dropWhile (fun c => c == ' ' || c == '\n' || c == '\t' || c == '\r')

/-- Scan a JSON string literal after its opening quote, up to the closing
quote. Escape sequences are not accepted (the spec-side reading only needs
escape-free bodies). -/
def scanStr : List Char → Option (String × List Char)
  | [] => none
  | c :: cs =>
    if c = '"' then some ("", cs)
    else if c = '\\' then none
    else
      match scanStr cs with
      | none => none
      | some (s, r) => some (String.mk (c :: s.data), r)

/-- Parse the members of a flat JSON object with string keys and string
values, after the opening brace, consuming the closing brace. -/
def parseMembers : Nat → List Char → Option (List (String × String) × List Char)
  | 0, _ => none
  | fuel + 1, cs =>
    match skipWs cs with
    | '"' :: rest =>
      match scanStr rest with
      | none => none
      | some (k, rest2) =>
        match skipWs rest2 with
        | ':' :: rest3 =>
          match skipWs rest3 with
          | '"' :: rest4 =>
            match scanStr rest4 with
            | none => none
            | some (v, rest5) =>
              match skipWs rest5 with
              | ',' :: rest6 =>
                match parseMembers fuel rest6 with
                | none => none
                | some (ms, r) => some ((k, v) :: ms, r)
              | '}' :: rest6 => some ([(k, v)], rest6)
              | _ => none
          | _ => none
        | _ => none
    | _ => none

/-- Spec-side: read a body text as a JSON mapping when it is a flat object
with string keys and string values; `none` when the body is not such a
mapping. -/
def parseFlatObj (s : String) : Option (List (String × String)) :=
  match skipWs s.data with
  | '{' :: rest =>
    match skipWs rest with
    | '}' :: rest2 => if skipWs rest2 = [] then some [] else none
    | _ =>
      match parseMembers (s.length + 1) rest with
      | none => none
      | some (ms, r) => if skipWs r = [] then some ms else none
  | _ => none

/-- Spec-side definition, following the spec's words for C4: the Generic
error carries "the server-provided message (as found under a `message` or
`detail` key if the body is a JSON mapping, else the raw text)". -/
def spec_carried_message (body : String) : String :=
  match parseFlatObj body with
  | some d =>
    match pyOr (pyGet d "message") (pyGet d "detail") with
    | some m => m
    | none => body
  | none => body

/-- Spec-side definition, following the spec's words for C2: the facade's
return is "the decoded body — JSON-parsed into mapping/sequence/string". -/
def spec_decoded (body : String) : Option PyVal :=
  (parseFlatObj body).map PyVal.obj

/-- `aiohttp.ClientTimeout`: only the `total` field is ever set by this
code (`ClientTimeout(total=0)` as the default). -/
structure ClientTimeout where
  total : Int
deriving DecidableEq, Repr

/-- An `aiohttp.ClientSession` as `get_session` constructs it: identity
(`id`, distinguishing separately constructed session objects), the
`base_url`, `headers` and `timeout` it was bound to, and its `closed`
flag. The TLS context and TCP connector are allocated per construction
and carry no observable state for the claims. -/
structure Session where
  id : Nat
  base_url : String
  headers : List (String × String)
  timeout : ClientTimeout
  closed : Bool
deriving DecidableEq, Repr

/-- The mutable state of an `AIOHTTPClient` instance: `_api_version`,
`_base_url`, `_headers`, `_timeout`, `_session` (None until first use),
plus a freshness counter supplying identities for newly constructed
session objects. -/
structure ClientState where
  api_version : String
  base_url : String
  headers : List (String × String)
  timeout : ClientTimeout
  session : Option Session
  next_id : Nat
deriving DecidableEq, Repr

/-- The `ClientSession(...)` construction inside `get_session`
(client.py lines 157-167): a fresh session object bound to the client's
base URL, default headers and timeout, initially open. -/
def new_session (c : ClientState) : Session :=
  { id := c.next_id
  , base_url := c.base_url
  , headers := c.headers
  , timeout := c.timeout
  , closed := false }

/-- Constructing and storing a new session (`self._session = ClientSession(...)`;
return `self._session`). -/
def install_new_session (c : ClientState) : Session × ClientState :=
  (new_session c, { c with session := some (new_session c), next_id := c.next_id + 1 })

/-- `AIOHTTPClient.get_session` (client.py lines 152-168): if
`self._session` is a `ClientSession` and not closed, return it; otherwise
construct a new session and cache it. -/
def get_session (c : ClientState) : Session × ClientState :=
  match c.session with
  | some s => if s.closed then install_new_session c else (s, c)
  | none => install_new_session c

/-- `AIOHTTPClient.close` (client.py lines 232-241): no-op when no session
was ever created or the session is already closed; otherwise mark the
session closed and `await asyncio.sleep(0.25)`. The second component
records the grace wait issued, in milliseconds (`none` = no wait). The
function is total: no path fails. -/
def close (c : ClientState) : ClientState × Option Nat :=
  match c.session with
  | none => (c, none)
  | some s =>
    if s.closed then (c, none)
    else ({ c with session := some { s with closed := true } }, some 250)

/-- `DEFAULT_API_HOST` (client.py line 28). -/
def DEFAULT_API_HOST : String := "https://api.tracker.yandex.net"

/-- `DEFAULT_API_VERSION` (client.py line 29). -/
def DEFAULT_API_VERSION : String := "v2"

/-- The `org_id: str | int` constructor argument. -/
inductive OrgId where
  | str (v : String)
  | int (n : Int)
deriving DecidableEq, Repr

/-- Python `str(org_id)`. -/
def org_id_str : OrgId → String
  | .str v => v
  | .int n => toString n

/-- Python `dict.setdefault(k, v)` on the association-list model: keep the
dict unchanged when the key is present, else append the pair. -/
def setdefault (d : List (String × String)) (k v : String) : List (String × String) :=
  match pyGet d k with
  | some _ => d
  | none => d ++ [(k, v)]

/-- Python `a or b` where `a` is an optional string-valued argument and
falsy means `None` or the empty string. -/
def pyOrStr (a : Option String) (d : String) : String :=
  match a with
  | some s => if s = "" then d else s
  | none => d

/-- The header computation of `BaseClient.__init__` (client.py lines
52-55): copy the caller's headers (or start empty), then
`setdefault` of `X-Org-Id` to `str(org_id)` and of `Authorization` to
`OAuth ` followed by the token. -/
def init_headers (headers : Option (List (String × String)))
    (org_id : OrgId) (token : String) : List (String × String) :=
  let h := match headers with
    | some hs => hs
    | none => []
  setdefault (setdefault h "X-Org-Id" (org_id_str org_id))
    "Authorization" ("OAuth " ++ token)

/-- `BaseClient.__init__` + `AIOHTTPClient.__init__` (client.py lines
35-57 and 127-150): versioned defaults via Python `or`, derived headers,
no session yet, `timeout or ClientTimeout(total=0)`. -/
def client_init (org_id : OrgId) (token : String)
    (headers : Option (List (String × String)))
    (api_host api_version : Option String)
    (timeout : Option ClientTimeout) : ClientState :=
  { api_version := pyOrStr api_version DEFAULT_API_VERSION
  , base_url := pyOrStr api_host DEFAULT_API_HOST
  , headers := init_headers headers org_id token
  , timeout := timeout.getD ⟨0⟩
  , session := none
  , next_id := 0 }

/-- The file argument of `_prepare_form` / `_prepare_file`
(`str | Path | io.IOBase` accepted; anything else rejected), tagged with
enough to reproduce `type(file).__name__`. -/
inductive FileArg where
  | str (path : String)
  | pathObj (p : String)
  | ioBase (handle : Nat)
  | intVal (n : Int)
  | other (type_name : String)
deriving DecidableEq, Repr

/-- Python `type(file).__name__` for each shape of argument. -/
def FileArg.typeName : FileArg → String
  | .str _ => "str"
  | .pathObj _ => "PosixPath"
  | .ioBase _ => "BufferedReader"
  | .intVal _ => "int"
  | .other t => t

/-- The value `_prepare_file` returns: a stream freshly opened for binary
reading from a path, or the caller's already-open stream passed through. -/
inductive PreparedFile where
  | opened_from_path (p : String)
  | passthrough (handle : Nat)
deriving DecidableEq, Repr

/-- `AIOHTTPClient._prepare_file` (client.py lines 200-213): `str` →
`Path(file).open("rb")`; `io.IOBase` → the stream unchanged; `Path` →
`file.open("rb")`; anything else → `TypeError` (the spec's
InvalidArgument) with the message naming `type(file).__name__`. -/
def prepare_file (file : FileArg) : Except String PreparedFile :=
  match file with
  | .str s => .ok (.opened_from_path s)
  | .ioBase h => .ok (.passthrough h)
  | .pathObj p => .ok (.opened_from_path p)
  | f => .error ("Not supported file type: `" ++ f.typeName ++ "`")

/-- `AIOHTTPClient._prepare_form` (client.py lines 194-198): a `FormData`
with the single field `"file"` holding `_prepare_file(file)`. -/
def prepare_form (file : FileArg) : Except String (List (String × PreparedFile)) :=
  match prepare_file file with
  | .error e => .error e
  | .ok pf => .ok [("file", pf)]

/-- After any `get_session` call, the cached session is the returned one
and it is open. -/
theorem get_session_post (c : ClientState) :
    ((get_session c).2).session = some ((get_session c).1)
    ∧ ((get_session c).1).closed = false := by
  rcases h : c.session with _ | s
  · simp [get_session, h, install_new_session, new_session]
  · by_cases hc : s.closed <;>
      simp [get_session, h, hc, install_new_session, new_session]

/-- Reuse branch of `get_session`: an open cached session is returned
unchanged, with no state change. -/
theorem get_session_of_open (c : ClientState) (s : Session)
    (hs : c.session = some s) (hc : s.closed = false) : get_session c = (s, c) := by
  simp [get_session, hs, hc]

/-- A second `close` right after a `close` is a no-op with no grace wait. -/
theorem close_close (c : ClientState) : close (close c).1 = ((close c).1, none) := by
  rcases h : c.session with _ | s
  · simp [close, h]
  · by_cases hc : s.closed <;> simp [close, h, hc]

/-- C1: `check_status` classifies every integer status exactly once, in
priority order: status < 300 returns without error (body untouched);
401/403/404/409 raise exactly NotAuthorized / SufficientRights /
ObjectNotFound / AlreadyExists and no other status raises any of these
four; every other status ≥ 300 raises Generic carrying the body text
unchanged. -/
theorem check_status_classification (s : Int) (t : String) :
    (s < 300 → check_status s t = .ok ())
    ∧ check_status 401 t = .error .notAuthorized
    ∧ check_status 403 t = .error .sufficientRights
    ∧ check_status 404 t = .error .objectNotFound
    ∧ check_status 409 t = .error .alreadyExists
    ∧ (check_status s t = .error .notAuthorized → s = 401)
    ∧ (check_status s t = .error .sufficientRights → s = 403)
    ∧ (check_status s t = .error .objectNotFound → s = 404)
    ∧ (check_status s t = .error .alreadyExists → s = 409)
    ∧ (300 ≤ s → s ≠ 401 → s ≠ 403 → s ≠ 404 → s ≠ 409 →
        check_status s t = .error (.generic (some t))) := by
  unfold check_status
  refine ⟨?_, by norm_num, by norm_num, by norm_num, by norm_num, ?_, ?_, ?_, ?_, ?_⟩ <;>
    · intro h
      split_ifs at * <;> simp_all <;> omega

/-- Witness for C1: concrete instances of every hypothesis-guarded clause. -/
theorem check_status_classification_witness :
    check_status 204 "ok-body" = .ok ()
    ∧ check_status 500 "err-body" = .error (.generic (some "err-body")) := by
  have h₁ := check_status_classification 204 "ok-body"
  have h₂ := check_status_classification 500 "err-body"
  exact ⟨h₁.1 (by norm_num),
    h₂.2.2.2.2.2.2.2.2.2 (by norm_num) (by norm_num) (by norm_num) (by norm_num) (by norm_num)⟩

/-- C4 counterexample: for an executor call answered 500 with body
`{"message":"oops"}` — a JSON mapping with a `message` key — the code's
Generic error carries the raw body text, not the value `oops` under the
`message` key that the claim's reading requires. -/
theorem make_request_message_extraction_counterexample :
    make_request ⟨500, "\x7b\"message\":\"oops\"\x7d"⟩
      = .error (.generic (some "\x7b\"message\":\"oops\"\x7d"))
    ∧ spec_carried_message "\x7b\"message\":\"oops\"\x7d" = "oops"
    ∧ "\x7b\"message\":\"oops\"\x7d" ≠ "oops" :=
  ⟨rfl, by decide, by decide⟩

/-- C4 (amended): for every executor call whose response status is not 200,
the executor raises a Generic error carrying the raw body text (the
`message`/`detail` extraction in `_process_exception` applies only to an
already-decoded dict argument, and `_make_request` always passes the raw
text string); for status 200 it returns the pair (status, body text)
without raising. -/
theorem make_request_behavior (resp : HttpResponse) :
    (resp.status ≠ 200 → make_request resp = .error (.generic (some resp.text)))
    ∧ (resp.status = 200 → make_request resp = .ok (200, resp.text))
    ∧ (∀ d, process_exception resp.status (.dict d)
        = .generic (pyOr (pyGet d "message") (pyGet d "detail"))) := by
  refine ⟨fun h => ?_, fun h => ?_, fun d => rfl⟩ <;>
    simp [make_request, process_exception, h]

/-- Witness for C4 (amended): a non-200 and a 200 response, concretely. -/
theorem make_request_behavior_witness :
    make_request ⟨500, "boom"⟩ = .error (.generic (some "boom"))
    ∧ make_request ⟨200, "fine"⟩ = .ok (200, "fine") :=
  ⟨(make_request_behavior ⟨500, "boom"⟩).1 (by decide),
   (make_request_behavior ⟨200, "fine"⟩).2.1 rfl⟩

/-- C5: in `AIOHTTPClient`, `_make_request` only returns normally with
status 200; consequently the 401/403/404/409 branches of `_check_status`
are unreachable through `AIOHTTPClient.request`, and every non-200
response surfaces as the Generic error built by `_process_exception`,
never as a typed NotAuthorized / SufficientRights / ObjectNotFound /
AlreadyExists error. -/
theorem aiohttp_typed_errors_unreachable (resp : HttpResponse) :
    (∀ s t, make_request resp = .ok (s, t) → s = 200)
    ∧ (resp.status ≠ 200 →
        aiohttp_request resp = .error (process_exception resp.status (.str resp.text)))
    ∧ (∀ e, aiohttp_request resp = .error e → e = .generic (some resp.text))
    ∧ aiohttp_request resp ≠ .error .notAuthorized
    ∧ aiohttp_request resp ≠ .error .sufficientRights
    ∧ aiohttp_request resp ≠ .error .objectNotFound
    ∧ aiohttp_request resp ≠ .error .alreadyExists := by
  by_cases h : resp.status = 200 <;>
    simp [aiohttp_request, request, make_request, check_status, process_exception, h]

/-- Witness for C5: a 201 response surfaces as Generic with the raw body. -/
theorem aiohttp_typed_errors_unreachable_witness :
    aiohttp_request ⟨201, "created"⟩
      = .error (process_exception 201 (.str "created")) :=
  (aiohttp_typed_errors_unreachable ⟨201, "created"⟩).2.1 (by decide)

/-- C2 counterexample: the end-to-end GET of `/issues/TEST-1` answered 200
with `{"key":"TEST-1"}` returns the raw body text as a string; the
JSON-decoded mapping the claim requires is a different value. -/
theorem request_decoded_counterexample :
    aiohttp_request_full (fun _ _ => ⟨200, "\x7b\"key\":\"TEST-1\"\x7d"⟩)
        "v2" "GET" "/issues/TEST-1"
      = .ok (.str "\x7b\"key\":\"TEST-1\"\x7d")
    ∧ spec_decoded "\x7b\"key\":\"TEST-1\"\x7d" = some (.obj [("key", "TEST-1")])
    ∧ PyVal.str "\x7b\"key\":\"TEST-1\"\x7d" ≠ PyVal.obj [("key", "TEST-1")] :=
  ⟨rfl, by decide, by decide⟩

/-- C2 (amended): for every facade request call that the server answers
with status 200, the facade returns the raw response body text as a string
(JSON decoding is left to higher layers outside this file); in particular
the GET of `/issues/TEST-1` returns the string, not the mapping. -/
theorem request_returns_raw_text (resp : HttpResponse) (h : resp.status = 200) :
    aiohttp_request resp = .ok (.str resp.text) := by
  simp [aiohttp_request, request, make_request, check_status, h]

/-- Witness for C2 (amended): the scenario's concrete 200 response. -/
theorem request_returns_raw_text_witness :
    aiohttp_request ⟨200, "\x7b\"key\":\"TEST-1\"\x7d"⟩
      = .ok (.str "\x7b\"key\":\"TEST-1\"\x7d") :=
  request_returns_raw_text ⟨200, "\x7b\"key\":\"TEST-1\"\x7d"⟩ rfl

/-- C3 counterexample: the end-to-end call answered 404 with body
`{"message":"not found"}` raises the Generic error carrying the raw body
text, not ObjectNotFound. -/
theorem notfound_raises_generic_counterexample :
    aiohttp_request_full (fun _ _ => ⟨404, "\x7b\"message\":\"not found\"\x7d"⟩)
        "v2" "GET" "/issues/TEST-1"
      = .error (.generic (some "\x7b\"message\":\"not found\"\x7d"))
    ∧ aiohttp_request_full (fun _ _ => ⟨404, "\x7b\"message\":\"not found\"\x7d"⟩)
        "v2" "GET" "/issues/TEST-1"
      ≠ .error .objectNotFound :=
  ⟨rfl, by simp [aiohttp_request_full, aiohttp_request, request, make_request,
    check_status, process_exception, build_url]⟩

/-- C3 (amended): every facade request call answered 404 raises the Generic
error carrying the raw body text — `_make_request` raises before the
status translator's ObjectNotFound branch can run — and never raises
ObjectNotFound. -/
theorem notfound_raises_generic (body : String) :
    aiohttp_request ⟨404, body⟩ = .error (.generic (some body))
    ∧ aiohttp_request ⟨404, body⟩ ≠ .error .objectNotFound := by
  refine ⟨rfl, ?_⟩
  simp [aiohttp_request, request, make_request, check_status, process_exception]

/-- C6: two sequential `get_session` calls with no intervening `close`
return the identical session object and leave the state fixed; if an open
session exists, `get_session` returns it unchanged and constructs no new
session. -/
theorem get_session_identity (c : ClientState) :
    (∀ s, c.session = some s → s.closed = false → get_session c = (s, c))
    ∧ (get_session (get_session c).2).1 = (get_session c).1
    ∧ (get_session (get_session c).2).2 = (get_session c).2 := by
  have post := get_session_post c
  have second := get_session_of_open (get_session c).2 (get_session c).1 post.1 post.2
  exact ⟨fun s hs hc => get_session_of_open c s hs hc,
    by rw [second], by rw [second]⟩

/-- Witness for C6: a concrete client holding an open session. -/
theorem get_session_identity_witness :
    get_session ⟨"v2", "h", [("k", "v")], ⟨0⟩, some ⟨0, "h", [("k", "v")], ⟨0⟩, false⟩, 1⟩
      = (⟨0, "h", [("k", "v")], ⟨0⟩, false⟩,
         ⟨"v2", "h", [("k", "v")], ⟨0⟩, some ⟨0, "h", [("k", "v")], ⟨0⟩, false⟩, 1⟩) :=
  (get_session_identity _).1 _ rfl rfl

/-- C7: after `close` (or with an already-closed session), the next
`get_session` returns a newly constructed session distinct from the
discarded one, bound to the client's base URL, default headers and
timeout, and open. The hypothesis `s.id < c.next_id` is the freshness
invariant of the identity counter. -/
theorem get_session_after_close (c : ClientState) (s : Session)
    (hs : c.session = some s) (hid : s.id < c.next_id) :
    ((get_session (close c).1).1).id ≠ s.id
    ∧ (get_session (close c).1).1 ≠ s
    ∧ ((get_session (close c).1).1).base_url = c.base_url
    ∧ ((get_session (close c).1).1).headers = c.headers
    ∧ ((get_session (close c).1).1).timeout = c.timeout
    ∧ ((get_session (close c).1).1).closed = false := by
  have key : (get_session (close c).1).1 = new_session c := by
    by_cases hc : s.closed <;>
      simp [close, hs, hc, get_session, install_new_session, new_session]
  rw [key]
  have hne : (new_session c).id ≠ s.id := by
    simp only [new_session]
    omega
  exact ⟨hne, fun h => hne (congrArg Session.id h), rfl, rfl, rfl, rfl⟩

/-- Witness for C7: a concrete client whose open session gets closed and
replaced by a fresh one with the same bindings. -/
theorem get_session_after_close_witness :
    ((get_session (close ⟨"v2", "h", [("k", "v")], ⟨7⟩,
        some ⟨0, "h", [("k", "v")], ⟨7⟩, false⟩, 1⟩).1).1).id ≠ 0
    ∧ ((get_session (close ⟨"v2", "h", [("k", "v")], ⟨7⟩,
        some ⟨0, "h", [("k", "v")], ⟨7⟩, false⟩, 1⟩).1).1).base_url = "h" := by
  have h := get_session_after_close
    ⟨"v2", "h", [("k", "v")], ⟨7⟩, some ⟨0, "h", [("k", "v")], ⟨7⟩, false⟩, 1⟩
    ⟨0, "h", [("k", "v")], ⟨7⟩, false⟩ rfl (by decide)
  exact ⟨h.1, h.2.2.1⟩

/-- C8: `close` is total (never fails) and idempotent: a no-op when no
session was ever created or the session is already closed; otherwise it
closes the session and issues the fixed 250 ms grace wait; a second
`close` in a row is a no-op, and `close` on a freshly constructed client
is a no-op. -/
theorem close_idempotent (c : ClientState) :
    (c.session = none → close c = (c, none))
    ∧ (∀ s, c.session = some s → s.closed = true → close c = (c, none))
    ∧ (∀ s, c.session = some s → s.closed = false →
        close c = ({ c with session := some { s with closed := true } }, some 250))
    ∧ close (close c).1 = ((close c).1, none)
    ∧ (∀ org token hs ah av t₀,
        close (client_init org token hs ah av t₀)
          = (client_init org token hs ah av t₀, none)) := by
  refine ⟨fun h => by simp [close, h],
    fun s hs hc => by simp [close, hs, hc],
    fun s hs hc => by simp [close, hs, hc],
    close_close c,
    fun org token hs ah av t₀ => by simp [close, client_init]⟩

/-- Witness for C8: a never-used client, and a double close on a client
holding an open session. -/
theorem close_idempotent_witness :
    close (client_init (.str "org") "tok" none none none none)
      = (client_init (.str "org") "tok" none none none none, none)
    ∧ close ⟨"v2", "h", [], ⟨0⟩, some ⟨0, "h", [], ⟨0⟩, false⟩, 1⟩
      = (⟨"v2", "h", [], ⟨0⟩, some ⟨0, "h", [], ⟨0⟩, true⟩, 1⟩, some 250)
    ∧ close (close ⟨"v2", "h", [], ⟨0⟩, some ⟨0, "h", [], ⟨0⟩, false⟩, 1⟩).1
      = ((close ⟨"v2", "h", [], ⟨0⟩, some ⟨0, "h", [], ⟨0⟩, false⟩, 1⟩).1, none) := by
  have h := close_idempotent ⟨"v2", "h", [], ⟨0⟩, some ⟨0, "h", [], ⟨0⟩, false⟩, 1⟩
  have hinit := close_idempotent (client_init (.str "org") "tok" none none none none)
  exact ⟨hinit.1 rfl, h.2.2.1 _ rfl rfl, h.2.2.2.1⟩

/-- C9: `_prepare_form` succeeds for the three accepted file-reference
shapes — a string path and a path object are opened for binary reading,
an already-open stream is passed through unchanged — always producing a
form with the single field `file`; any other type fails with a
`TypeError` (the spec's InvalidArgument) whose message names the actual
type received. -/
theorem prepare_form_classification :
    (∀ s, prepare_form (.str s) = .ok [("file", .opened_from_path s)])
    ∧ (∀ p, prepare_form (.pathObj p) = .ok [("file", .opened_from_path p)])
    ∧ (∀ h, prepare_form (.ioBase h) = .ok [("file", .passthrough h)])
    ∧ (∀ n, prepare_form (.intVal n) = .error ("Not supported file type: `int`"))
    ∧ (∀ t, prepare_form (.other t)
        = .error ("Not supported file type: `" ++ t ++ "`"))
    ∧ (∀ f r, prepare_form f = .ok r → ∃ pf, r = [("file", pf)]) := by
  refine ⟨fun s => rfl, fun p => rfl, fun h => rfl, fun n => rfl, fun t => rfl,
    fun f r h => ?_⟩
  rcases f <;> simp [prepare_form, prepare_file] at h <;> exact ⟨_, h.symm⟩

/-- Witness for C9: one accepted shape, one rejected shape, and the
single-field form of a concrete success. -/
theorem prepare_form_classification_witness :
    prepare_form (.str "report.pdf") = .ok [("file", .opened_from_path "report.pdf")]
    ∧ prepare_form (.intVal 5) = .error ("Not supported file type: `int`")
    ∧ ∃ pf, [("file", PreparedFile.passthrough 7)] = [("file", pf)] :=
  ⟨prepare_form_classification.1 "report.pdf",
   prepare_form_classification.2.2.2.1 5,
   prepare_form_classification.2.2.2.2.2 (.ioBase 7) _ rfl⟩

/-- Lookup in an association list extended on the right by one pair. -/
theorem pyGet_append_single (d : List (String × String)) (k v k' : String) :
    pyGet (d ++ [(k, v)]) k'
      = match pyGet d k' with
        | some w => some w
        | none => if k = k' then some v else none := by
  induction d with
  | nil => simp [pyGet]
  | cons p rest ih =>
    rcases p with ⟨pk, pv⟩
    by_cases hp : pk = k' <;> simp [pyGet, hp, ih]

/-- `setdefault` leaves any present binding visible unchanged. -/
theorem pyGet_setdefault_of_some (d : List (String × String)) (k v k' w : String)
    (h : pyGet d k' = some w) : pyGet (setdefault d k v) k' = some w := by
  unfold setdefault
  rcases hk : pyGet d k with _ | u
  · rw [pyGet_append_single, h]
  · exact h

/-- `setdefault` makes its own key look up to the present value, else the
default. -/
theorem pyGet_setdefault_same (d : List (String × String)) (k v : String) :
    pyGet (setdefault d k v) k = some ((pyGet d k).getD v) := by
  unfold setdefault
  rcases hk : pyGet d k with _ | u
  · rw [pyGet_append_single, hk]
    simp
  · simp [hk]

/-- `setdefault` does not disturb lookups of other keys. -/
theorem pyGet_setdefault_diff (d : List (String × String)) (k v k' : String)
    (hk : k ≠ k') : pyGet (setdefault d k v) k' = pyGet d k' := by
  unfold setdefault
  rcases h : pyGet d k with _ | u
  · rw [pyGet_append_single]
    rcases h' : pyGet d k' with _ | w <;> simp [hk]
  · rfl

/-- C10: the constructed default headers hold `X-Org-Id` = `str(org_id)`
and `Authorization` = `OAuth token`, except that a caller-supplied value
under the same key is kept; more generally every caller-supplied binding
survives untouched. -/
theorem init_headers_defaults (hs : List (String × String)) (org : OrgId)
    (token : String) :
    pyGet (init_headers (some hs) org token) "X-Org-Id"
      = some ((pyGet hs "X-Org-Id").getD (org_id_str org))
    ∧ pyGet (init_headers (some hs) org token) "Authorization"
      = some ((pyGet hs "Authorization").getD ("OAuth " ++ token))
    ∧ init_headers none org token
      = [("X-Org-Id", org_id_str org), ("Authorization", "OAuth " ++ token)]
    ∧ (∀ k w, pyGet hs k = some w →
        pyGet (init_headers (some hs) org token) k = some w) := by
  refine ⟨?_, ?_, ?_, fun k w h => ?_⟩
  · exact pyGet_setdefault_of_some _ _ _ _ _ (pyGet_setdefault_same hs "X-Org-Id" _)
  · rw [show init_headers (some hs) org token
        = setdefault (setdefault hs "X-Org-Id" (org_id_str org))
            "Authorization" ("OAuth " ++ token) from rfl,
      pyGet_setdefault_same,
      pyGet_setdefault_diff hs "X-Org-Id" _ "Authorization" (by decide)]
  · rfl
  · exact pyGet_setdefault_of_some _ _ _ _ _ (pyGet_setdefault_of_some _ _ _ _ _ h)

/-- Witness for C10: a caller-supplied `Authorization` header survives and
the missing `X-Org-Id` is derived. -/
theorem init_headers_defaults_witness :
    pyGet (init_headers (some [("Authorization", "custom")])
        (.str "org42") "tok") "X-Org-Id" = some "org42"
    ∧ pyGet (init_headers (some [("Authorization", "custom")])
        (.str "org42") "tok") "Authorization" = some "custom" := by
  have h := init_headers_defaults [("Authorization", "custom")] (.str "org42") "tok"
  refine ⟨?_, h.2.2.2 "Authorization" "custom" rfl⟩
  rw [h.1]
  rfl

end YaTracker
